import Mathlib

/-
Verification of the streaming STT server
(src/native-audio-service/python/local_stt_server.py).

The embedding below translates the buffer / dual-cadence scheduling core of
the server into Lean. Audio bytes are modelled as naturals, the per-speaker
state (buffers[speaker], slow_offsets[speaker], last_fast_text[speaker]) as a
record, one iteration of each background loop as a pure step function, and a
session as a trace of atomic operations. Atomicity of the steps is justified
by the per-speaker asyncio.Lock serialising every buffer access and by the
single-threaded event loop owning the dedup and cursor dictionaries; the
inference call itself runs on the thread pool and its outcome enters each
step as a parameter.
-/

/-- A raw audio byte. Only ordering and identity of bytes matter to the
scheduling core, so a natural number stands for each byte value. -/
abbrev Byte := Nat

/-- SAMPLE_RATE = 16000 (line 21). -/
def SAMPLE_RATE : Nat := 16000

/-- int(SLIDING_WINDOW_SEC * SAMPLE_RATE * 2) with SLIDING_WINDOW_SEC = 0.4
(lines 27, 126); the float product is exact, giving 12800 bytes. -/
def sliding_window_bytes : Nat := 2 * SAMPLE_RATE * 2 / 5

/-- tail_bytes = int(FAST_LOOKBACK_SEC * SAMPLE_RATE * 2) with
FAST_LOOKBACK_SEC = 0.5 (lines 28, 125): 16000 bytes. -/
def tail_bytes : Nat := SAMPLE_RATE * 2 / 2

/-- bytes_needed = int(SLOW_WINDOW_SEC * SAMPLE_RATE * 2) with
SLOW_WINDOW_SEC = 2.0 (lines 29, 177): 64000 bytes. -/
def bytes_needed : Nat := 2 * SAMPLE_RATE * 2

/-- overlap_bytes = int(OVERLAP_SEC * SAMPLE_RATE * 2) with
OVERLAP_SEC = 0.2 (lines 30, 186): 6400 bytes. -/
def overlap_bytes : Nat := SAMPLE_RATE * 2 / 5

/-- One segment returned by an engine transcribe call: its text and its
avg_logprob score. The score is only ever passed through unchanged, so its
numeric type is immaterial; Int stands for it. -/
structure Segment where
  text : String
  avg_logprob : Int
deriving DecidableEq

/-- An outbound transcript message (the JSON object built at lines 156-162
and 214-220): type is always "transcript" and is omitted. -/
structure TranscriptEvent where
  speaker : String
  text : String
  final : Bool
  confidence : Int
deriving DecidableEq

/-- The per-speaker server state: buffers[speaker] (line 53),
slow_offsets[speaker] (line 70) and last_fast_text[speaker] (line 69). -/
structure SpeakerState where
  buffer : List Byte
  slow_offset : Nat
  last_fast_text : String
deriving DecidableEq

/-- The value each per-speaker entry receives in STTServer.__init__
(lines 52-70): empty bytearray, cursor 0, empty draft text. -/
def init_speaker : SpeakerState := ⟨[], 0, ""⟩

/-- str.strip() with no argument: whitespace removed from both ends of the
string (structurally, on the character list). -/
def strip (s : String) : String :=
  ⟨((s.data.dropWhile Char.isWhitespace).reverse.dropWhile Char.isWhitespace).reverse⟩

/-- The segment-emission block of fast_loop (lines 151-163): for each
segment, text = segment.text.strip(); when text is nonempty and differs from
last_fast_text[speaker], that entry is updated and one draft event is sent;
otherwise the segment is suppressed. Returns the final last_fast_text value
and the events sent, in order. -/
def fast_emit (speaker : String) : String → List Segment → String × List TranscriptEvent
  | last, [] => (last, [])
  | last, seg :: rest =>
      let text := strip seg.text
      if text ≠ "" ∧ text ≠ last then
        let r := fast_emit speaker text rest
        (r.1, ⟨speaker, text, false, seg.avg_logprob⟩ :: r.2)
      else
        fast_emit speaker last rest

/-- Result of one fast_loop iteration: the new state, the buffer tail handed
to the inference call (none when the tick skipped before inference), and the
draft events sent. -/
structure FastTickResult where
  state : SpeakerState
  window : Option (List Byte)
  events : List TranscriptEvent
deriving DecidableEq

/-- One iteration of fast_loop (lines 118-167). Under the speaker lock: if
len(buffer) < int(SLIDING_WINDOW_SEC * SAMPLE_RATE * 2) the tick continues
without further effect (line 126); otherwise buffer_tail = buffer with only
the last tail_bytes kept (buffer[-tail_bytes:], line 130). The transcribe
call runs on the executor; inferResult is its outcome: none when it raised
(the except at line 165 logs and the iteration ends with no state change),
some segments on success, after which the dedup block runs. -/
def fast_tick (speaker : String) (inferResult : Option (List Segment)) (s : SpeakerState) : FastTickResult :=
  if s.buffer.length < sliding_window_bytes then ⟨s, none, []⟩
  else
    let buffer_tail := s.buffer.drop (s.buffer.length - tail_bytes)
    match inferResult with
    | none => ⟨s, some buffer_tail, []⟩
    | some segments =>
        let r := fast_emit speaker s.last_fast_text segments
        ⟨⟨s.buffer, s.slow_offset, r.1⟩, some buffer_tail, r.2⟩

/-- The names bound in the scope of slow_loop up to the inference call:
its parameters and the locals assigned in its body (lines 169-210). -/
def slow_loop_locals : List String :=
  ["self", "speaker", "websocket", "bytes_needed", "buffer_len",
   "overlap_bytes", "start_index", "data_to_process", "loop",
   "transcribe_slow", "segments", "segment", "response", "e"]

/-- The module-level names of local_stt_server.py (imports, configuration
constants, logger and the class itself, lines 1-32). -/
def module_globals : List String :=
  ["asyncio", "websockets", "ThreadPoolExecutor", "json", "logging", "np",
   "WhisperModel", "io", "collections", "time", "logger", "COMPUTE_TYPE",
   "SAMPLE_RATE", "CHANNELS", "BUFFER_DURATION_SEC", "SLIDING_WINDOW_SEC",
   "FAST_LOOKBACK_SEC", "SLOW_WINDOW_SEC", "OVERLAP_SEC", "STTServer"]

/-- transcribe_slow (lines 200-208) evaluates
self.final_model.transcribe(audio_array, ...). Python resolves the free
name audio_array through the enclosing function scope (slow_loop) and the
module globals; it is bound only as a local of fast_loop (line 133), which
does not enclose slow_loop, and it is no builtin, so the lookup fails and
every call of transcribe_slow raises NameError before the engine sees any
waveform. -/
def transcribe_slow_raises : Bool :=
  !((slow_loop_locals ++ module_globals).contains "audio_array")

/-- The emission block of slow_loop (lines 213-223): one final event per
segment whose stripped text is nonempty, confidence = avg_logprob, no
deduplication. Reachable only if transcribe_slow returned normally. -/
def slow_emit (speaker : String) (segments : List Segment) : List TranscriptEvent :=
  (segments.map fun seg => ⟨speaker, strip seg.text, true, seg.avg_logprob⟩).filter
    fun e => e.text != ""

/-- Result of one slow_loop iteration: the new state, the byte range
[start_index, buffer_len) captured as data_to_process for the inference
attempt (none when the tick continued before reaching the call), and the
final events sent. -/
structure SlowTickResult where
  state : SpeakerState
  window : Option (Nat × Nat)
  events : List TranscriptEvent
deriving DecidableEq

/-- One iteration of slow_loop (lines 169-231), with engineSegments the
sequence the final model would return if the transcribe call ran. Under the
lock: continue when buffer_len < bytes_needed (line 181); otherwise
start_index = max(0, slow_offsets[speaker] - overlap_bytes) (line 187,
truncated subtraction on Nat), data_to_process = buffer[start_index:]
(line 190), and slow_offsets[speaker] = buffer_len is committed at line 193,
before the length check at line 196 and before the inference call. When
data_to_process is shorter than bytes_needed the iteration continues
(line 196) with the cursor already moved. Otherwise transcribe_slow runs on
the executor; since it raises NameError (transcribe_slow_raises), the except
at line 229 logs and the iteration ends with no events; the emission block
would run only on a normal return. The buffer is never trimmed (line 225). -/
def slow_tick (speaker : String) (engineSegments : List Segment) (s : SpeakerState) : SlowTickResult :=
  if s.buffer.length < bytes_needed then ⟨s, none, []⟩
  else
    let start_index := s.slow_offset - overlap_bytes
    let data_to_process := s.buffer.drop start_index
    let s' : SpeakerState := ⟨s.buffer, s.buffer.length, s.last_fast_text⟩
    if data_to_process.length < bytes_needed then ⟨s', none, []⟩
    else if transcribe_slow_raises then ⟨s', some (start_index, s.buffer.length), []⟩
    else ⟨s', some (start_index, s.buffer.length), slow_emit speaker engineSegments⟩

/-- One inbound websocket message as seen by handle_client after
json.loads: either the parse raised JSONDecodeError, or an object whose
speaker and audio fields are each a string or absent (data.get, lines
81-82). -/
inductive InMessage where
  | malformedJSON : InMessage
  | obj : Option String → Option String → InMessage
deriving DecidableEq

/-- A hexadecimal digit, as accepted by bytes.fromhex. -/
def isHexDigitChar (c : Char) : Bool :=
  c.isDigit || (('a' ≤ c) && (c ≤ 'f')) || (('A' ≤ c) && (c ≤ 'F'))

/-- Value of a hexadecimal digit. -/
def hexVal (c : Char) : Nat :=
  if c.isDigit then c.toNat - '0'.toNat
  else if 'a' ≤ c then c.toNat - 'a'.toNat + 10
  else c.toNat - 'A'.toNat + 10

/-- Decode a list of hex digits two at a time; none models the ValueError
bytes.fromhex raises on a non-hex character or an odd digit count. -/
def decodeHexPairs : List Char → Option (List Byte)
  | [] => some []
  | [_] => none
  | c1 :: c2 :: rest =>
      if isHexDigitChar c1 && isHexDigitChar c2 then
        (decodeHexPairs rest).map fun bs => (16 * hexVal c1 + hexVal c2) :: bs
      else none

/-- bytes.fromhex (line 93): ASCII spaces are skipped, then the string must
be an even number of hex digits; otherwise ValueError (modelled as none). -/
def fromhex (s : String) : Option (List Byte) :=
  decodeHexPairs (s.data.filter fun c => c != ' ')

/-- The whole-server state: one SpeakerState per fixed key of the
self.buffers / self.slow_offsets / self.last_fast_text dictionaries
(lines 52-70). -/
structure ServerState where
  user : SpeakerState
  interviewer : SpeakerState
deriving DecidableEq

/-- The state built once in STTServer.__init__ (lines 52-73): empty buffers,
zero cursors, empty draft texts for both fixed speaker keys. -/
def STTServer_init : ServerState := ⟨init_speaker, init_speaker⟩

/-- Handling of one inbound message by handle_client (lines 78-108). Every
failure branch logs and continues, so the function is total: JSONDecodeError
is caught at line 105, the falsy-field check at line 84 drops messages with
a missing or empty speaker or audio field, unknown speakers are dropped at
line 88, and the ValueError from bytes.fromhex is caught by the generic
except at line 107 before any lock is taken. Only a fully valid message
appends its decoded bytes to the named buffer (lines 96-97). -/
def handle_message (st : ServerState) (msg : InMessage) : ServerState :=
  match msg with
  | .malformedJSON => st
  | .obj speakerField audioField =>
      match speakerField, audioField with
      | some speaker, some audio_hex =>
          if speaker = "" ∨ audio_hex = "" then st
          else if speaker ≠ "user" ∧ speaker ≠ "interviewer" then st
          else
            match fromhex audio_hex with
            | none => st
            | some audio_bytes =>
                if speaker = "user" then
                  ⟨⟨st.user.buffer ++ audio_bytes, st.user.slow_offset, st.user.last_fast_text⟩,
                    st.interviewer⟩
                else
                  ⟨st.user,
                    ⟨st.interviewer.buffer ++ audio_bytes, st.interviewer.slow_offset,
                      st.interviewer.last_fast_text⟩⟩
      | _, _ => st

/-- The async-for of handle_client (line 78): messages are handled one after
the other on the same connection. -/
def handle_messages (st : ServerState) (msgs : List InMessage) : ServerState :=
  msgs.foldl handle_message st

/-- The malformed-message cases of the ingest contract: unparseable JSON,
missing speaker field, missing audio field, a speaker that is not one of
the two fixed keys, or an audio field that is not valid hex. -/
def malformedMsg : InMessage → Bool
  | .malformedJSON => true
  | .obj none _ => true
  | .obj _ none => true
  | .obj (some s) (some a) =>
      if s ≠ "user" ∧ s ≠ "interviewer" then true else (fromhex a).isNone

/-- server_handler (lines 242-258) starts the four loop tasks for a new
connection and cancels them on exit; it neither constructs nor resets
self.buffers, self.slow_offsets or self.last_fast_text, which were created
once in STTServer.__init__, so a new connection starts from whatever state
the previous one left behind. -/
def server_handler_entry (prev : ServerState) : ServerState := prev

/-- One atomic operation on a single speaker: a successful ingest append for
that speaker (the critical section at lines 96-97), one fast_loop iteration
carrying its inference outcome, or one slow_loop iteration carrying what the
engine would return. -/
inductive SOp where
  | append : List Byte → SOp
  | fastTick : Option (List Segment) → SOp
  | slowTick : List Segment → SOp
deriving DecidableEq

/-- The outcome of one operation: the new speaker state, the slow-pass
window captured for inference on this step if any, and the events sent. -/
structure StepResult where
  state : SpeakerState
  slowWindow : Option (Nat × Nat)
  events : List TranscriptEvent
deriving DecidableEq

/-- Effect of one atomic operation on a speaker state. -/
def step (speaker : String) (s : SpeakerState) : SOp → StepResult
  | .append chunk => ⟨⟨s.buffer ++ chunk, s.slow_offset, s.last_fast_text⟩, none, []⟩
  | .fastTick r =>
      let f := fast_tick speaker r s
      ⟨f.state, none, f.events⟩
  | .slowTick segs =>
      let r := slow_tick speaker segs s
      ⟨r.state, r.window, r.events⟩

/-- Run a trace of operations, collecting the slow-pass windows captured for
inference, in order. -/
def runTrace (speaker : String) : SpeakerState → List SOp → SpeakerState × List (Nat × Nat)
  | s, [] => (s, [])
  | s, op :: ops =>
      ((runTrace speaker (step speaker s op).state ops).1,
        (step speaker s op).slowWindow.toList ++ (runTrace speaker (step speaker s op).state ops).2)

/-- A chunk of n zero bytes, used as concrete audio payload in the closed
theorems below. Kept abstract behind this definition so that proofs reason
with the three lemmas following it instead of expanding the list. -/
def zeros (n : Nat) : List Byte := List.replicate n 0

/-- A trace in which the second slow tick advances the cursor over bytes
that never reach an inference attempt: 64000 bytes arrive and are windowed
at (0, 64000); 100 more bytes arrive; the next tick passes the buffer-length
gate (64100 at least 64000), commits the cursor to 64100, and only then finds
data_to_process (6500 bytes) below the window size and skips inference. -/
def C2_ops : List SOp :=
  [.append (zeros 64000), .slowTick [], .append (zeros 100), .slowTick []]

/-- The C2 trace followed by 57600 more bytes and one more slow tick, whose
window starts at 64100 - 6400 = 57700: the two windows that reach inference
share only bytes 57700 to 64000, which is 6300 bytes, less than
overlap_bytes. -/
def C3_ops : List SOp :=
  [.append (zeros 64000), .slowTick [], .append (zeros 100), .slowTick [],
   .append (zeros 57600), .slowTick []]

/-- One-message first session used to exhibit cross-session persistence:
a valid ingest message appending bytes 0x0a 0x1b to the user buffer. -/
def session1_msgs : List InMessage := [.obj (some "user") (some "0a1b")]

theorem zeros_length (n : Nat) : (zeros n).length = n := List.length_replicate n 0

theorem zeros_append (m n : Nat) : zeros m ++ zeros n = zeros (m + n) :=
  List.append_replicate_replicate

theorem zeros_drop (k n : Nat) : (zeros n).drop k = zeros (n - k) :=
  List.drop_replicate 0 k n

theorem transcribe_slow_raises_eq : transcribe_slow_raises = true := by decide

/-- Characterisation of the window captured by one slow tick: it is taken
exactly when the buffer reaches bytes_needed and the part after
max(0, cursor - overlap_bytes) also reaches bytes_needed, and is then the
range from that start to the buffer end. -/
theorem slow_tick_window_eq (speaker : String) (segs : List Segment) (s : SpeakerState) :
    (slow_tick speaker segs s).window =
      if bytes_needed ≤ s.buffer.length ∧
          bytes_needed ≤ s.buffer.length - (s.slow_offset - overlap_bytes) then
        some (s.slow_offset - overlap_bytes, s.buffer.length)
      else none := by
  unfold slow_tick
  rw [transcribe_slow_raises_eq]
  simp only [List.length_drop]
  split_ifs <;> first | rfl | omega

/-- Characterisation of the state after one slow tick: the cursor jumps to
the buffer end as soon as the buffer reaches bytes_needed — already before
the second length check and before the inference call — and the buffer and
draft text are never touched. -/
theorem slow_tick_state_eq (speaker : String) (segs : List Segment) (s : SpeakerState) :
    (slow_tick speaker segs s).state =
      if bytes_needed ≤ s.buffer.length then
        ⟨s.buffer, s.buffer.length, s.last_fast_text⟩
      else s := by
  unfold slow_tick
  rw [transcribe_slow_raises_eq]
  simp only [List.length_drop]
  split_ifs <;> first | rfl | omega

/-- Every slow tick ends with an empty event list: transcribe_slow raises
NameError, so the emission block never runs. -/
theorem slow_tick_events_eq (speaker : String) (segs : List Segment) (s : SpeakerState) :
    (slow_tick speaker segs s).events = [] := by
  unfold slow_tick
  rw [transcribe_slow_raises_eq]
  simp only [List.length_drop]
  split_ifs <;> rfl

/-- C1: the claim states that a slow-pass tick whose inference call fails
leaves the cursor and buffer unchanged, the commit happening only after
successful inference. The code diverges: slow_offsets[speaker] is assigned
buffer_len at line 193, before the inference call, and the inference call
always fails (transcribe_slow raises NameError on the unbound audio_array),
yet the cursor ends at the buffer length. The buffer itself is indeed
unchanged. -/
theorem C1_failed_inference_still_commits_cursor :
    transcribe_slow_raises = true ∧
    ∀ (speaker : String) (segs : List Segment) (s : SpeakerState),
      bytes_needed ≤ s.buffer.length →
      (slow_tick speaker segs s).events = [] ∧
      (slow_tick speaker segs s).state.buffer = s.buffer ∧
      (slow_tick speaker segs s).state.slow_offset = s.buffer.length := by
  refine ⟨transcribe_slow_raises_eq,
    fun speaker segs s h => ⟨slow_tick_events_eq speaker segs s, ?_, ?_⟩⟩ <;>
    rw [slow_tick_state_eq, if_pos h]

/-- C1 witness: on a 64000-byte buffer with cursor 0, the slow tick fails
its inference (no events) yet moves the cursor from 0 to 64000. -/
theorem C1_failed_inference_still_commits_cursor_witness :
    (slow_tick "user" [⟨"hello", -1⟩] ⟨zeros 64000, 0, ""⟩).events = [] ∧
    (slow_tick "user" [⟨"hello", -1⟩] ⟨zeros 64000, 0, ""⟩).state.buffer = zeros 64000 ∧
    (slow_tick "user" [⟨"hello", -1⟩] ⟨zeros 64000, 0, ""⟩).state.slow_offset = 64000 := by
  have h := C1_failed_inference_still_commits_cursor.2 "user" [⟨"hello", -1⟩]
    ⟨zeros 64000, 0, ""⟩ (by rw [zeros_length]; decide)
  simpa [zeros_length] using h

/-- C4: the claim states that every slow tick with a full window submits the
window waveform to the engine (beam 5, VAD on) and emits one final event per
nonempty segment. The code diverges: transcribe_slow reads the name
audio_array, which is unbound in slow_loop (it is a local of fast_loop
only), so every slow inference raises NameError before the engine is
reached and the emission block never runs: whatever the engine would have
returned, the event list of every slow tick is empty. -/
theorem C4_slow_inference_never_receives_waveform :
    transcribe_slow_raises = true ∧
    ∀ (speaker : String) (segs : List Segment) (s : SpeakerState),
      (slow_tick speaker segs s).events = [] :=
  ⟨transcribe_slow_raises_eq, fun speaker segs s => slow_tick_events_eq speaker segs s⟩

/-- C2: the claim states that every byte range the cursor is advanced past
has been part of at least one submitted slow-pass window. On the C2_ops
trace the cursor ends at 64100 while the only window that ever reaches the
inference call is (0, 64000): bytes 64000 to 64100 are committed without
ever being part of a submitted window. -/
theorem C2_cursor_commits_bytes_never_submitted :
    (runTrace "user" init_speaker C2_ops).2 = [(0, 64000)] ∧
    (runTrace "user" init_speaker C2_ops).1.slow_offset = 64100 ∧
    ((runTrace "user" init_speaker C2_ops).2.all fun w => decide (w.2 ≤ 64000)) = true := by
  have e1 : step "user" init_speaker (.append (zeros 64000)) =
      ⟨⟨zeros 64000, 0, ""⟩, none, []⟩ := rfl
  have e2 : step "user" ⟨zeros 64000, 0, ""⟩ (.slowTick []) =
      ⟨⟨zeros 64000, 64000, ""⟩, some (0, 64000), []⟩ := by
    simp [step, slow_tick, bytes_needed, overlap_bytes, SAMPLE_RATE,
      transcribe_slow_raises_eq, zeros_length, zeros_drop]
  have e3 : step "user" ⟨zeros 64000, 64000, ""⟩ (.append (zeros 100)) =
      ⟨⟨zeros 64100, 64000, ""⟩, none, []⟩ := by
    simp [step, zeros_append]
  have e4 : step "user" ⟨zeros 64100, 64000, ""⟩ (.slowTick []) =
      ⟨⟨zeros 64100, 64100, ""⟩, none, []⟩ := by
    simp [step, slow_tick, bytes_needed, overlap_bytes, SAMPLE_RATE,
      transcribe_slow_raises_eq, zeros_length, zeros_drop]
  simp only [C2_ops, runTrace, e1, e2, e3, e4]
  simp

/-- C3 counterexample: the claim states that two consecutive windows
submitted to inference share at least overlap_bytes of audio whenever the
buffer holds at least that much. On the C3_ops trace the two windows that
reach the inference call are (0, 64000) and (57700, 121700), sharing only
6300 bytes, below overlap_bytes = 6400, although the buffer holds 121700
bytes: the intervening tick committed the cursor to 64100 without
submitting a window. -/
theorem C3_consecutive_windows_short_overlap :
    (runTrace "user" init_speaker C3_ops).2 = [(0, 64000), (57700, 121700)] ∧
    min 64000 121700 - max 0 57700 < overlap_bytes ∧
    overlap_bytes ≤ (runTrace "user" init_speaker C3_ops).1.buffer.length := by
  have e1 : step "user" init_speaker (.append (zeros 64000)) =
      ⟨⟨zeros 64000, 0, ""⟩, none, []⟩ := rfl
  have e2 : step "user" ⟨zeros 64000, 0, ""⟩ (.slowTick []) =
      ⟨⟨zeros 64000, 64000, ""⟩, some (0, 64000), []⟩ := by
    simp [step, slow_tick, bytes_needed, overlap_bytes, SAMPLE_RATE,
      transcribe_slow_raises_eq, zeros_length, zeros_drop]
  have e3 : step "user" ⟨zeros 64000, 64000, ""⟩ (.append (zeros 100)) =
      ⟨⟨zeros 64100, 64000, ""⟩, none, []⟩ := by
    simp [step, zeros_append]
  have e4 : step "user" ⟨zeros 64100, 64000, ""⟩ (.slowTick []) =
      ⟨⟨zeros 64100, 64100, ""⟩, none, []⟩ := by
    simp [step, slow_tick, bytes_needed, overlap_bytes, SAMPLE_RATE,
      transcribe_slow_raises_eq, zeros_length, zeros_drop]
  have e5 : step "user" ⟨zeros 64100, 64100, ""⟩ (.append (zeros 57600)) =
      ⟨⟨zeros 121700, 64100, ""⟩, none, []⟩ := by
    simp [step, zeros_append]
  have e6 : step "user" ⟨zeros 121700, 64100, ""⟩ (.slowTick []) =
      ⟨⟨zeros 121700, 121700, ""⟩, some (57700, 121700), []⟩ := by
    simp [step, slow_tick, bytes_needed, overlap_bytes, SAMPLE_RATE,
      transcribe_slow_raises_eq, zeros_length, zeros_drop]
  simp only [C3_ops, runTrace, e1, e2, e3, e4, e5, e6]
  simp [zeros_length, overlap_bytes, SAMPLE_RATE]

/-- C3 amended: each window reaching the inference call starts at
max(0, cursor - overlap_bytes) and the committed cursor is the window end
(the buffer length at snapshot time); and two consecutive submitted windows
share exactly overlap_bytes of audio provided the cursor was not advanced
between them by a tick that skipped inference. Without that proviso the
shared region can drop below overlap_bytes, as the counterexample shows. -/
theorem C3_window_shape_and_overlap_without_intervening_commit :
    ∀ (sp1 sp2 : String) (segs1 segs2 : List Segment) (s t : SpeakerState) (a b c d : Nat),
      s.slow_offset ≤ s.buffer.length →
      (slow_tick sp1 segs1 s).window = some (a, b) →
      t.slow_offset = b →
      b ≤ t.buffer.length →
      (slow_tick sp2 segs2 t).window = some (c, d) →
      a = s.slow_offset - overlap_bytes ∧
      b = s.buffer.length ∧
      (slow_tick sp1 segs1 s).state.slow_offset = b ∧
      c = b - overlap_bytes ∧
      d = t.buffer.length ∧
      min b d - max a c = overlap_bytes := by
  intro sp1 sp2 segs1 segs2 s t a b c d hinv hw1 ht hbt hw2
  rw [slow_tick_window_eq] at hw1 hw2
  have hob : overlap_bytes = 6400 := by decide
  have hbn : bytes_needed = 64000 := by decide
  split_ifs at hw1 with h1
  split_ifs at hw2 with h2
  simp only [Option.some.injEq, Prod.mk.injEq] at hw1 hw2
  obtain ⟨ha, hb⟩ := hw1
  obtain ⟨hc, hd⟩ := hw2
  have hst : (slow_tick sp1 segs1 s).state.slow_offset = b := by
    rw [slow_tick_state_eq, if_pos h1.1]; exact hb
  exact ⟨by omega, by omega, hst, by omega, by omega, by omega⟩

/-- C3 witness: a first window (0, 64000) on a 64000-byte buffer and a
second window (57600, 128000) taken after the buffer grew to 128000 bytes
with the cursor still at 64000 share exactly overlap_bytes of audio. -/
theorem C3_window_shape_witness :
    (slow_tick "user" [] ⟨zeros 64000, 0, ""⟩).window = some (0, 64000) ∧
    (slow_tick "user" [] ⟨zeros 128000, 64000, ""⟩).window = some (57600, 128000) ∧
    min 64000 128000 - max 0 57600 = overlap_bytes := by
  have hw1 : (slow_tick "user" [] ⟨zeros 64000, 0, ""⟩).window = some (0, 64000) := by
    simp [slow_tick, bytes_needed, overlap_bytes, SAMPLE_RATE,
      transcribe_slow_raises_eq, zeros_length, zeros_drop]
  have hw2 : (slow_tick "user" [] ⟨zeros 128000, 64000, ""⟩).window =
      some (57600, 128000) := by
    simp [slow_tick, bytes_needed, overlap_bytes, SAMPLE_RATE,
      transcribe_slow_raises_eq, zeros_length, zeros_drop]
  have h := C3_window_shape_and_overlap_without_intervening_commit "user" "user" [] []
    ⟨zeros 64000, 0, ""⟩ ⟨zeros 128000, 64000, ""⟩ 0 64000 57600 128000
    (by simp [zeros_length]) hw1 rfl (by rw [zeros_length]; decide) hw2
  exact ⟨hw1, hw2, h.2.2.2.2.2⟩

/-- The fast tick never touches the buffer or the slow cursor: only
last_fast_text can change. -/
theorem fast_tick_keeps_buffer_and_cursor (speaker : String) (r : Option (List Segment)) (s : SpeakerState) :
    (fast_tick speaker r s).state.buffer = s.buffer ∧
    (fast_tick speaker r s).state.slow_offset = s.slow_offset := by
  unfold fast_tick
  split
  · exact ⟨rfl, rfl⟩
  · cases r with
    | none => exact ⟨rfl, rfl⟩
    | some segs => exact ⟨rfl, rfl⟩

/-- Every single operation keeps the cursor within the buffer, never
decreases it, and only ever extends the buffer at the tail. -/
theorem step_monotone (speaker : String) (s : SpeakerState) (op : SOp)
    (h : s.slow_offset ≤ s.buffer.length) :
    s.slow_offset ≤ (step speaker s op).state.slow_offset ∧
    (step speaker s op).state.slow_offset ≤ (step speaker s op).state.buffer.length ∧
    ∃ ext : List Byte, (step speaker s op).state.buffer = s.buffer ++ ext := by
  cases op with
  | append chunk =>
      refine ⟨le_refl _, ?_, chunk, rfl⟩
      show s.slow_offset ≤ (s.buffer ++ chunk).length
      rw [List.length_append]
      omega
  | fastTick r =>
      have hf := fast_tick_keeps_buffer_and_cursor speaker r s
      show s.slow_offset ≤ (fast_tick speaker r s).state.slow_offset ∧
        (fast_tick speaker r s).state.slow_offset ≤ (fast_tick speaker r s).state.buffer.length ∧
        ∃ ext : List Byte, (fast_tick speaker r s).state.buffer = s.buffer ++ ext
      rw [hf.1, hf.2]
      exact ⟨le_refl _, h, [], (List.append_nil s.buffer).symm⟩
  | slowTick segs =>
      show s.slow_offset ≤ (slow_tick speaker segs s).state.slow_offset ∧
        (slow_tick speaker segs s).state.slow_offset ≤ (slow_tick speaker segs s).state.buffer.length ∧
        ∃ ext : List Byte, (slow_tick speaker segs s).state.buffer = s.buffer ++ ext
      rw [slow_tick_state_eq]
      split
      · exact ⟨h, le_refl _, [], (List.append_nil s.buffer).symm⟩
      · exact ⟨le_refl _, h, [], (List.append_nil s.buffer).symm⟩

/-- The state after a trace extended by one operation is the step applied to
the state after the trace. -/
theorem runTrace_snoc (speaker : String) (ops : List SOp) (op : SOp) :
    ∀ s : SpeakerState,
      (runTrace speaker s (ops ++ [op])).1 = (step speaker (runTrace speaker s ops).1 op).state := by
  induction ops with
  | nil => intro s; rfl
  | cons o os ih => intro s; exact ih (step speaker s o).state

/-- The cursor-within-buffer invariant holds along every trace. -/
theorem runTrace_inv (speaker : String) (ops : List SOp) :
    ∀ s : SpeakerState, s.slow_offset ≤ s.buffer.length →
      (runTrace speaker s ops).1.slow_offset ≤ (runTrace speaker s ops).1.buffer.length := by
  induction ops with
  | nil => intro s h; exact h
  | cons o os ih => intro s h; exact ih (step speaker s o).state (step_monotone speaker s o h).2.1

/-- C9: along every interleaving of ingest appends, fast ticks and slow
ticks from the initial state, the slow cursor never exceeds the buffer
length, never decreases across a step, and the buffer is only ever extended
at the tail (never trimmed), so the re-base-to-zero case never arises. -/
theorem C9_cursor_bounded_monotone_buffer_append_only :
    ∀ (speaker : String) (ops : List SOp) (op : SOp),
      (runTrace speaker init_speaker ops).1.slow_offset ≤
        (runTrace speaker init_speaker ops).1.buffer.length ∧
      (runTrace speaker init_speaker ops).1.slow_offset ≤
        (runTrace speaker init_speaker (ops ++ [op])).1.slow_offset ∧
      ∃ ext : List Byte, (runTrace speaker init_speaker (ops ++ [op])).1.buffer =
        (runTrace speaker init_speaker ops).1.buffer ++ ext := by
  intro speaker ops op
  have hinv := runTrace_inv speaker ops init_speaker (Nat.le_refl 0)
  have hm := step_monotone speaker (runTrace speaker init_speaker ops).1 op hinv
  rw [runTrace_snoc]
  exact ⟨hinv, hm.1, hm.2.2⟩

/-- C5 counterexample: the claim states that whenever the stripped text of a
fast-pass segment differs from last_fast_text, the entry is updated and one
draft event is emitted. A segment whose text strips to the empty string
differs from a nonempty last_fast_text, yet the guard at line 154 requires
the text to be truthy as well: nothing is emitted and the entry keeps its
old value. -/
theorem C5_empty_draft_suppressed_despite_differing :
    strip (Segment.mk " " 0).text ≠ "hi" ∧
    fast_emit "user" "hi" [⟨" ", 0⟩] = ("hi", []) := by
  constructor
  · decide
  · rfl

/-- C5 amended: a fast-pass segment whose stripped text is empty or equal to
last_fast_text is suppressed without a state change; a segment whose
stripped text is nonempty and differs updates last_fast_text and emits
exactly one non-final event carrying that text and the avg_logprob; and
consecutive identical stripped texts produce at most one event. -/
theorem C5_fast_dedup_nonempty_drafts :
    ∀ (speaker last : String) (seg : Segment),
      (strip seg.text = "" ∨ strip seg.text = last →
        fast_emit speaker last [seg] = (last, [])) ∧
      (strip seg.text ≠ "" → strip seg.text ≠ last →
        fast_emit speaker last [seg] =
          (strip seg.text, [⟨speaker, strip seg.text, false, seg.avg_logprob⟩])) ∧
      fast_emit speaker (strip seg.text) [seg] = (strip seg.text, []) ∧
      (fast_emit speaker last [seg, seg]).2.length ≤ 1 := by
  intro speaker last seg
  refine ⟨?_, ?_, ?_, ?_⟩
  · intro h
    rcases h with h | h <;> simp [fast_emit, h]
  · intro h1 h2
    simp [fast_emit, h1, h2]
  · simp [fast_emit]
  · by_cases h1 : strip seg.text = ""
    · simp [fast_emit, h1]
    · by_cases h2 : strip seg.text = last <;> simp [fast_emit, h1, h2]

/-- C5 witness: a fresh speaker receiving the segment " hi " emits exactly
one draft event with text "hi" and the avg_logprob passed through. -/
theorem C5_fast_dedup_nonempty_drafts_witness :
    fast_emit "user" "" [⟨" hi ", -2⟩] = ("hi", [⟨"user", "hi", false, -2⟩]) := by
  have h := (C5_fast_dedup_nonempty_drafts "user" "" ⟨" hi ", -2⟩).2.1 (by decide) (by decide)
  have e : strip (Segment.mk " hi " (-2)).text = "hi" := by decide
  rw [e] at h
  exact h

/-- C10: the fast pass never emits an event with empty text: every emitted
draft has nonempty text, and a segment whose text strips to the empty
string leaves last_fast_text unchanged and emits nothing. -/
theorem C10_fast_pass_no_empty_text_events :
    ∀ (speaker last : String) (segs : List Segment),
      ((fast_emit speaker last segs).2.all fun e => e.text != "") = true ∧
      ∀ seg : Segment, strip seg.text = "" → fast_emit speaker last [seg] = (last, []) := by
  intro speaker last segs
  constructor
  · induction segs generalizing last with
    | nil => rfl
    | cons seg rest ih =>
        by_cases h1 : strip seg.text = ""
        · simp only [fast_emit]
          rw [if_neg (by simp [h1])]
          exact ih last
        · by_cases h2 : strip seg.text = last
          · simp only [fast_emit]
            rw [if_neg (by simp [h2])]
            exact ih last
          · simp only [fast_emit]
            rw [if_pos ⟨h1, h2⟩]
            simp only [List.all_cons, Bool.and_eq_true]
            exact ⟨by simp [h1], ih (strip seg.text)⟩
  · intro seg h
    simp [fast_emit, h]

/-- C10 witness: a whitespace-only segment against last_fast_text "x" emits
nothing and leaves the entry at "x". -/
theorem C10_fast_pass_no_empty_text_events_witness :
    fast_emit "user" "x" [⟨" ", 1⟩] = ("x", []) :=
  (C10_fast_pass_no_empty_text_events "user" "x" []).2 ⟨" ", 1⟩ (by decide)

/-- C6: a fast tick on a buffer below sliding_window_bytes (12800 bytes,
0.4 s) is a no-op: no inference window, no events, no state change. On a
buffer at or above that size the tick hands the inference call exactly the
last tail_bytes (16000 bytes, 0.5 s) of the buffer — a tail whose length is
bounded by tail_bytes however long the buffer is — and never mutates the
buffer. -/
theorem C6_fast_tick_skip_and_bounded_tail :
    ∀ (speaker : String) (r : Option (List Segment)) (s : SpeakerState),
      (s.buffer.length < sliding_window_bytes → fast_tick speaker r s = ⟨s, none, []⟩) ∧
      (sliding_window_bytes ≤ s.buffer.length →
        (fast_tick speaker r s).window = some (s.buffer.drop (s.buffer.length - tail_bytes)) ∧
        (s.buffer.drop (s.buffer.length - tail_bytes)).length ≤ tail_bytes ∧
        (fast_tick speaker r s).state.buffer = s.buffer) := by
  intro speaker r s
  constructor
  · intro h
    simp [fast_tick, h]
  · intro h
    have hn : ¬ s.buffer.length < sliding_window_bytes := by omega
    have hlen : (s.buffer.drop (s.buffer.length - tail_bytes)).length ≤ tail_bytes := by
      rw [List.length_drop]
      omega
    unfold fast_tick
    rw [if_neg hn]
    cases r with
    | none => exact ⟨rfl, hlen, rfl⟩
    | some segs => exact ⟨rfl, hlen, rfl⟩

/-- C6 witness: a 100-byte buffer is skipped untouched; a 12800-byte buffer
is left unmutated by the tick and its submitted tail is within the
tail_bytes bound. -/
theorem C6_fast_tick_skip_and_bounded_tail_witness :
    fast_tick "user" none ⟨zeros 100, 0, ""⟩ = ⟨⟨zeros 100, 0, ""⟩, none, []⟩ ∧
    (fast_tick "user" none ⟨zeros 12800, 0, ""⟩).state.buffer = zeros 12800 := by
  have h1 := (C6_fast_tick_skip_and_bounded_tail "user" none ⟨zeros 100, 0, ""⟩).1
    (by simp [zeros_length, sliding_window_bytes, SAMPLE_RATE])
  have h2 := (C6_fast_tick_skip_and_bounded_tail "user" none ⟨zeros 12800, 0, ""⟩).2
    (by simp [zeros_length, sliding_window_bytes, SAMPLE_RATE])
  exact ⟨h1, h2.2.2⟩

/-- C7 counterexample: the claim states that fresh per-speaker state is
constructed per connection, with nothing persisting between sessions. After
a first session ingests one valid message, the state a second connection
starts from (server_handler does not reset anything) still holds the first
session's bytes and differs from the state __init__ built. -/
theorem C7_next_session_sees_previous_state :
    server_handler_entry (handle_messages STTServer_init session1_msgs) ≠ STTServer_init ∧
    (server_handler_entry (handle_messages STTServer_init session1_msgs)).user.buffer =
      [10, 27] := by
  constructor
  · decide
  · decide

/-- C7 amended: per-speaker state is constructed fresh once, at server
construction (empty buffers, zero cursors, empty draft texts), not per
connection; server_handler neither creates nor resets it, so buffer bytes,
cursor values and draft text persist from one session into the next — two
consecutive sessions behave exactly like one session fed the concatenated
message stream. -/
theorem C7_state_constructed_once_and_persists :
    STTServer_init.user.buffer = [] ∧ STTServer_init.interviewer.buffer = [] ∧
    STTServer_init.user.slow_offset = 0 ∧ STTServer_init.interviewer.slow_offset = 0 ∧
    STTServer_init.user.last_fast_text = "" ∧ STTServer_init.interviewer.last_fast_text = "" ∧
    ∀ (msgs1 msgs2 : List InMessage),
      handle_messages (server_handler_entry (handle_messages STTServer_init msgs1)) msgs2 =
        handle_messages STTServer_init (msgs1 ++ msgs2) := by
  refine ⟨rfl, rfl, rfl, rfl, rfl, rfl, fun msgs1 msgs2 => ?_⟩
  simp [server_handler_entry, handle_messages, List.foldl_append]

/-- C8: a malformed inbound message — unparseable JSON, missing speaker,
missing audio, unknown speaker key, or invalid hex — leaves every buffer
untouched (handle_message is a total function, so no exception reaches the
connection loop) and the connection goes on to process the rest of the
stream exactly as if the message had not arrived. -/
theorem C8_malformed_message_dropped_connection_continues :
    ∀ (st : ServerState) (msg : InMessage) (rest : List InMessage),
      malformedMsg msg = true →
      handle_message st msg = st ∧
      handle_messages st (msg :: rest) = handle_messages st rest := by
  intro st msg rest hm
  have hdrop : handle_message st msg = st := by
    cases msg with
    | malformedJSON => rfl
    | obj sp au =>
        cases sp with
        | none => rfl
        | some s =>
            cases au with
            | none => rfl
            | some a =>
                simp only [malformedMsg] at hm
                by_cases hemp : s = "" ∨ a = ""
                · simp [handle_message, hemp]
                · by_cases hk : s ≠ "user" ∧ s ≠ "interviewer"
                  · simp [handle_message, hemp, hk]
                  · have hfh : fromhex a = none := by
                      rw [if_neg hk] at hm
                      exact Option.isNone_iff_eq_none.mp hm
                    simp [handle_message, hemp, hk, hfh]
  refine ⟨hdrop, ?_⟩
  show List.foldl handle_message st (msg :: rest) = List.foldl handle_message st rest
  rw [List.foldl_cons, hdrop]

/-- C8 witness: a message missing its audio field is dropped from the fresh
state, and a following valid message is processed as if the malformed one
had not arrived. -/
theorem C8_malformed_message_dropped_witness :
    handle_message STTServer_init (.obj (some "user") none) = STTServer_init ∧
    handle_messages STTServer_init
        [.obj (some "user") none, .obj (some "user") (some "0a1b")] =
      handle_messages STTServer_init [.obj (some "user") (some "0a1b")] :=
  C8_malformed_message_dropped_connection_continues STTServer_init (.obj (some "user") none)
    [.obj (some "user") (some "0a1b")] (by decide)
